import Mathlib

/-!
Shallow embedding of the slider-joint constraint component of the
reactphysics3d library (file `src/constraint/SliderJoint.h`).

The repository material consists of the header only: the `SliderJointInfo`
constructors and a handful of inline accessors (`getMotorForce`, the
getters) are real source code and are embedded verbatim below.  Every
other member function (`SliderJoint` constructor, the setters,
`resetLimits`, `initBeforeSolve`, `warmstart`, `solveVelocityConstraint`,
`solvePositionConstraint`) is only declared in the header; its body lives
in the absent `SliderJoint.cpp`.  Those bodies are modelled from the
specification and each such definition carries a doc comment starting
with `Modelled from the spec:`.

The C++ `decimal` type is embedded as `ℚ`; a division whose divisor may
be zero (which in IEEE arithmetic produces a non-finite value) is
embedded as an `Option`-valued division.
-/

namespace SliderSpec

/-- Embedding of the C++ `decimal` scalar type. -/
abbrev decimal : Type := ℚ

/-- Division of `decimal` values.  A zero divisor has no meaningful
(finite) result in the source's floating-point arithmetic, so the
embedding returns `none` there. -/
def divD (a b : decimal) : Option decimal :=
  if b = 0 then none else some (a / b)

/-- Embedding of the 3-component vector type `Vector3`. -/
structure Vector3 where
  x : decimal
  y : decimal
  z : decimal
  deriving DecidableEq

/-- Embedding of the 2-component vector type `Vector2`. -/
structure Vector2 where
  x : decimal
  y : decimal
  deriving DecidableEq

/-- Embedding of the quaternion type `Quaternion`. -/
structure Quaternion where
  x : decimal
  y : decimal
  z : decimal
  w : decimal
  deriving DecidableEq

instance : Add Vector3 := ⟨fun a b => ⟨a.x + b.x, a.y + b.y, a.z + b.z⟩⟩

instance : Neg Vector3 := ⟨fun a => ⟨-a.x, -a.y, -a.z⟩⟩

instance : Sub Vector3 := ⟨fun a b => a + -b⟩

instance : SMul decimal Vector3 := ⟨fun c a => ⟨c * a.x, c * a.y, c * a.z⟩⟩

instance : Zero Vector3 := ⟨⟨0, 0, 0⟩⟩

instance : Add Vector2 := ⟨fun a b => ⟨a.x + b.x, a.y + b.y⟩⟩

instance : Neg Vector2 := ⟨fun a => ⟨-a.x, -a.y⟩⟩

instance : SMul decimal Vector2 := ⟨fun c a => ⟨c * a.x, c * a.y⟩⟩

instance : Zero Vector2 := ⟨⟨0, 0⟩⟩

/-- Dot product of two `Vector3` values. -/
def dot (a b : Vector3) : decimal := a.x * b.x + a.y * b.y + a.z * b.z

/-- Cross product of two `Vector3` values. -/
def cross (a b : Vector3) : Vector3 :=
  ⟨a.y * b.z - a.z * b.y, a.z * b.x - a.x * b.z, a.x * b.y - a.y * b.x⟩

/-- Embedding of the 2x2 matrix type `Matrix2x2` (row major). -/
structure Matrix2x2 where
  a11 : decimal
  a12 : decimal
  a21 : decimal
  a22 : decimal
  deriving DecidableEq

/-- Determinant of a `Matrix2x2`. -/
def Matrix2x2.det (m : Matrix2x2) : decimal := m.a11 * m.a22 - m.a12 * m.a21

/-- Matrix-vector product for `Matrix2x2`. -/
def Matrix2x2.mulVec (m : Matrix2x2) (v : Vector2) : Vector2 :=
  ⟨m.a11 * v.x + m.a12 * v.y, m.a21 * v.x + m.a22 * v.y⟩

/-- Inverse of a `Matrix2x2`; `none` when the matrix is singular, the
case in which the spec requires the corresponding sub-constraint to be
skipped rather than dividing by zero. -/
def Matrix2x2.inverseOpt (m : Matrix2x2) : Option Matrix2x2 :=
  if m.det = 0 then none
  else some ⟨m.a22 / m.det, -m.a12 / m.det, -m.a21 / m.det, m.a11 / m.det⟩

/-- Embedding of the 3x3 matrix type `Matrix3x3` (row major). -/
structure Matrix3x3 where
  a11 : decimal
  a12 : decimal
  a13 : decimal
  a21 : decimal
  a22 : decimal
  a23 : decimal
  a31 : decimal
  a32 : decimal
  a33 : decimal
  deriving DecidableEq

/-- Matrix-vector product for `Matrix3x3`. -/
def Matrix3x3.mulVec (m : Matrix3x3) (v : Vector3) : Vector3 :=
  ⟨m.a11 * v.x + m.a12 * v.y + m.a13 * v.z,
   m.a21 * v.x + m.a22 * v.y + m.a23 * v.z,
   m.a31 * v.x + m.a32 * v.y + m.a33 * v.z⟩

instance : Add Matrix3x3 :=
  ⟨fun m n => ⟨m.a11 + n.a11, m.a12 + n.a12, m.a13 + n.a13,
               m.a21 + n.a21, m.a22 + n.a22, m.a23 + n.a23,
               m.a31 + n.a31, m.a32 + n.a32, m.a33 + n.a33⟩⟩

instance : Zero Matrix3x3 := ⟨⟨0, 0, 0, 0, 0, 0, 0, 0, 0⟩⟩

/-- Determinant of a `Matrix3x3`. -/
def Matrix3x3.det (m : Matrix3x3) : decimal :=
  m.a11 * (m.a22 * m.a33 - m.a23 * m.a32)
  - m.a12 * (m.a21 * m.a33 - m.a23 * m.a31)
  + m.a13 * (m.a21 * m.a32 - m.a22 * m.a31)

/-- Inverse of a `Matrix3x3` via the adjugate; `none` when singular. -/
def Matrix3x3.inverseOpt (m : Matrix3x3) : Option Matrix3x3 :=
  if m.det = 0 then none
  else some
    ⟨(m.a22 * m.a33 - m.a23 * m.a32) / m.det,
     (m.a13 * m.a32 - m.a12 * m.a33) / m.det,
     (m.a12 * m.a23 - m.a13 * m.a22) / m.det,
     (m.a23 * m.a31 - m.a21 * m.a33) / m.det,
     (m.a11 * m.a33 - m.a13 * m.a31) / m.det,
     (m.a13 * m.a21 - m.a11 * m.a23) / m.det,
     (m.a21 * m.a32 - m.a22 * m.a31) / m.det,
     (m.a12 * m.a31 - m.a11 * m.a32) / m.det,
     (m.a11 * m.a22 - m.a12 * m.a21) / m.det⟩

/-- Clamp a `decimal` into the interval from `lo` to `hi` (the library's
`clamp` helper: `min(max(value, lo), hi)`). -/
def clampD (v lo hi : decimal) : decimal := min (max v lo) hi

/-- Scalar analogue of the matrix inversion used for the 1x1 limit and
motor mass matrices: `none` when the effective mass is zero. -/
def invOpt (k : decimal) : Option decimal :=
  if k = 0 then none else some (1 / k)

@[simp] lemma Vector3.add_x (a b : Vector3) : (a + b).x = a.x + b.x := rfl

@[simp] lemma Vector3.add_y (a b : Vector3) : (a + b).y = a.y + b.y := rfl

@[simp] lemma Vector3.add_z (a b : Vector3) : (a + b).z = a.z + b.z := rfl

@[simp] lemma Vector3.neg_x (a : Vector3) : (-a).x = -a.x := rfl

@[simp] lemma Vector3.neg_y (a : Vector3) : (-a).y = -a.y := rfl

@[simp] lemma Vector3.neg_z (a : Vector3) : (-a).z = -a.z := rfl

@[simp] lemma Vector3.sub_x (a b : Vector3) : (a - b).x = a.x - b.x := by
  show a.x + -b.x = a.x - b.x; ring

@[simp] lemma Vector3.sub_y (a b : Vector3) : (a - b).y = a.y - b.y := by
  show a.y + -b.y = a.y - b.y; ring

@[simp] lemma Vector3.sub_z (a b : Vector3) : (a - b).z = a.z - b.z := by
  show a.z + -b.z = a.z - b.z; ring

@[simp] lemma Vector3.smul_x (c : decimal) (a : Vector3) : (c • a).x = c * a.x := rfl

@[simp] lemma Vector3.smul_y (c : decimal) (a : Vector3) : (c • a).y = c * a.y := rfl

@[simp] lemma Vector3.smul_z (c : decimal) (a : Vector3) : (c • a).z = c * a.z := rfl

@[simp] lemma Vector3.zero_x : (0 : Vector3).x = 0 := rfl

@[simp] lemma Vector3.zero_y : (0 : Vector3).y = 0 := rfl

@[simp] lemma Vector3.zero_z : (0 : Vector3).z = 0 := rfl

@[simp] lemma v2add_x (a b : Vector2) : (a + b).x = a.x + b.x := rfl

@[simp] lemma v2add_y (a b : Vector2) : (a + b).y = a.y + b.y := rfl

@[simp] lemma v2smul_x (c : decimal) (a : Vector2) : (c • a).x = c * a.x := rfl

@[simp] lemma v2smul_y (c : decimal) (a : Vector2) : (c • a).y = c * a.y := rfl

@[simp] lemma v2zero_x : (0 : Vector2).x = 0 := rfl

@[simp] lemma v2zero_y : (0 : Vector2).y = 0 := rfl

@[simp] lemma v2neg_x (a : Vector2) : (-a).x = -a.x := rfl

@[simp] lemma v2neg_y (a : Vector2) : (-a).y = -a.y := rfl

lemma v3zero_smul (a : Vector3) : (0 : decimal) • a = 0 := by
  show (⟨0 * a.x, 0 * a.y, 0 * a.z⟩ : Vector3) = ⟨0, 0, 0⟩
  norm_num

lemma v3smul_zero (c : decimal) : c • (0 : Vector3) = 0 := by
  show (⟨c * 0, c * 0, c * 0⟩ : Vector3) = ⟨0, 0, 0⟩
  norm_num

lemma v3neg_zero : -(0 : Vector3) = 0 := by
  show (⟨-(0 : decimal), -0, -0⟩ : Vector3) = ⟨0, 0, 0⟩
  norm_num

lemma v3add_zero (a : Vector3) : a + 0 = a := by
  rcases a with ⟨x, y, z⟩
  show (⟨x + 0, y + 0, z + 0⟩ : Vector3) = ⟨x, y, z⟩
  norm_num

@[simp] lemma Matrix3x3.zero_a11 : (0 : Matrix3x3).a11 = 0 := rfl

@[simp] lemma Matrix3x3.zero_a12 : (0 : Matrix3x3).a12 = 0 := rfl

@[simp] lemma Matrix3x3.zero_a13 : (0 : Matrix3x3).a13 = 0 := rfl

@[simp] lemma Matrix3x3.zero_a21 : (0 : Matrix3x3).a21 = 0 := rfl

@[simp] lemma Matrix3x3.zero_a22 : (0 : Matrix3x3).a22 = 0 := rfl

@[simp] lemma Matrix3x3.zero_a23 : (0 : Matrix3x3).a23 = 0 := rfl

@[simp] lemma Matrix3x3.zero_a31 : (0 : Matrix3x3).a31 = 0 := rfl

@[simp] lemma Matrix3x3.zero_a32 : (0 : Matrix3x3).a32 = 0 := rfl

@[simp] lemma Matrix3x3.zero_a33 : (0 : Matrix3x3).a33 = 0 := rfl

@[simp] lemma Matrix3x3.add_a11 (m n : Matrix3x3) : (m + n).a11 = m.a11 + n.a11 := rfl

@[simp] lemma Matrix3x3.add_a12 (m n : Matrix3x3) : (m + n).a12 = m.a12 + n.a12 := rfl

@[simp] lemma Matrix3x3.add_a13 (m n : Matrix3x3) : (m + n).a13 = m.a13 + n.a13 := rfl

@[simp] lemma Matrix3x3.add_a21 (m n : Matrix3x3) : (m + n).a21 = m.a21 + n.a21 := rfl

@[simp] lemma Matrix3x3.add_a22 (m n : Matrix3x3) : (m + n).a22 = m.a22 + n.a22 := rfl

@[simp] lemma Matrix3x3.add_a23 (m n : Matrix3x3) : (m + n).a23 = m.a23 + n.a23 := rfl

@[simp] lemma Matrix3x3.add_a31 (m n : Matrix3x3) : (m + n).a31 = m.a31 + n.a31 := rfl

@[simp] lemma Matrix3x3.add_a32 (m n : Matrix3x3) : (m + n).a32 = m.a32 + n.a32 := rfl

@[simp] lemma Matrix3x3.add_a33 (m n : Matrix3x3) : (m + n).a33 = m.a33 + n.a33 := rfl

/-- Embedding of `struct SliderJointInfo` (header lines 40-103).  The
`ConstraintInfo` base holds the two rigid-body references and the joint
type tag; the bodies are embedded as opaque identifiers. -/
structure SliderJointInfo where
  body1 : Nat
  body2 : Nat
  anchorPointWorldSpace : Vector3
  sliderAxisWorldSpace : Vector3
  isLimitEnabled : Bool
  isMotorEnabled : Bool
  lowerLimit : decimal
  upperLimit : decimal
  motorSpeed : decimal
  maxMotorForce : decimal
  deriving DecidableEq

/-- Embedding of the `SliderJointInfo` constructor without limits and
without motor (header lines 71-78). -/
def mkInfoNoLimitNoMotor (rigidBody1 rigidBody2 : Nat)
    (initAnchorPointWorldSpace initSliderAxisWorldSpace : Vector3) :
    SliderJointInfo :=
  { body1 := rigidBody1
    body2 := rigidBody2
    anchorPointWorldSpace := initAnchorPointWorldSpace
    sliderAxisWorldSpace := initSliderAxisWorldSpace
    isLimitEnabled := false
    isMotorEnabled := false
    lowerLimit := -1
    upperLimit := 1
    motorSpeed := 0
    maxMotorForce := 0 }

/-- Embedding of the `SliderJointInfo` constructor with limits and no
motor (header lines 81-89).  The supplied limits are stored verbatim:
the constructor performs no validation. -/
def mkInfoWithLimits (rigidBody1 rigidBody2 : Nat)
    (initAnchorPointWorldSpace initSliderAxisWorldSpace : Vector3)
    (initLowerLimit initUpperLimit : decimal) : SliderJointInfo :=
  { body1 := rigidBody1
    body2 := rigidBody2
    anchorPointWorldSpace := initAnchorPointWorldSpace
    sliderAxisWorldSpace := initSliderAxisWorldSpace
    isLimitEnabled := true
    isMotorEnabled := false
    lowerLimit := initLowerLimit
    upperLimit := initUpperLimit
    motorSpeed := 0
    maxMotorForce := 0 }

/-- Embedding of the `SliderJointInfo` constructor with limits and motor
(header lines 92-102).  The supplied limits and maximum motor force are
stored verbatim: the constructor performs no validation. -/
def mkInfoWithLimitsAndMotor (rigidBody1 rigidBody2 : Nat)
    (initAnchorPointWorldSpace initSliderAxisWorldSpace : Vector3)
    (initLowerLimit initUpperLimit initMotorSpeed initMaxMotorForce : decimal) :
    SliderJointInfo :=
  { body1 := rigidBody1
    body2 := rigidBody2
    anchorPointWorldSpace := initAnchorPointWorldSpace
    sliderAxisWorldSpace := initSliderAxisWorldSpace
    isLimitEnabled := true
    isMotorEnabled := true
    lowerLimit := initLowerLimit
    upperLimit := initUpperLimit
    motorSpeed := initMotorSpeed
    maxMotorForce := initMaxMotorForce }

/-- Embedding of the member state of `class SliderJoint` (header lines
109-296).  Field names follow the header.  The three inverse-mass-matrix
fields are `Option`-valued: `none` models the non-invertible case, in
which the spec requires the solve passes to skip the corresponding
sub-constraint (the inversion itself is in the missing
`SliderJoint.cpp`). -/
structure SliderJoint where
  mLocalAnchorPointBody1 : Vector3
  mLocalAnchorPointBody2 : Vector3
  mSliderAxisBody1 : Vector3
  mInitOrientationDifference : Quaternion
  mN1 : Vector3
  mN2 : Vector3
  mR1 : Vector3
  mR2 : Vector3
  mR2CrossN1 : Vector3
  mR2CrossN2 : Vector3
  mR2CrossSliderAxis : Vector3
  mR1PlusUCrossN1 : Vector3
  mR1PlusUCrossN2 : Vector3
  mR1PlusUCrossSliderAxis : Vector3
  mBTranslation : Vector2
  mBRotation : Vector3
  mBLowerLimit : decimal
  mBUpperLimit : decimal
  mInverseMassMatrixTranslationConstraint : Option Matrix2x2
  mInverseMassMatrixRotationConstraint : Option Matrix3x3
  mInverseMassMatrixLimit : Option decimal
  mInverseMassMatrixMotor : Option decimal
  mImpulseTranslation : Vector2
  mImpulseRotation : Vector3
  mImpulseLowerLimit : decimal
  mImpulseUpperLimit : decimal
  mImpulseMotor : decimal
  mIsLimitEnabled : Bool
  mIsMotorEnabled : Bool
  mSliderAxisWorld : Vector3
  mLowerLimit : decimal
  mUpperLimit : decimal
  mIsLowerLimitViolated : Bool
  mIsUpperLimitViolated : Bool
  mMotorSpeed : decimal
  mMaxMotorForce : decimal
  deriving DecidableEq

/-- Embedding of the inline accessor `SliderJoint::isLimitEnabled`
(header lines 299-301). -/
def SliderJoint.isLimitEnabled (j : SliderJoint) : Bool := j.mIsLimitEnabled

/-- Embedding of the inline accessor `SliderJoint::isMotorEnabled`
(header lines 304-306). -/
def SliderJoint.isMotorEnabled (j : SliderJoint) : Bool := j.mIsMotorEnabled

/-- Embedding of the inline accessor `SliderJoint::getLowerLimit`
(header lines 309-311). -/
def SliderJoint.getLowerLimit (j : SliderJoint) : decimal := j.mLowerLimit

/-- Embedding of the inline accessor `SliderJoint::getUpperLimit`
(header lines 314-316). -/
def SliderJoint.getUpperLimit (j : SliderJoint) : decimal := j.mUpperLimit

/-- Embedding of the inline accessor `SliderJoint::getMotorSpeed`
(header lines 319-321). -/
def SliderJoint.getMotorSpeed (j : SliderJoint) : decimal := j.mMotorSpeed

/-- Embedding of the inline accessor `SliderJoint::getMaxMotorForce`
(header lines 324-326). -/
def SliderJoint.getMaxMotorForce (j : SliderJoint) : decimal := j.mMaxMotorForce

/-- Embedding of the inline accessor `SliderJoint::getMotorForce`
(header lines 329-331): `return mImpulseMotor / timeStep;`.  The
division is unguarded in the source; the `Option`-valued division makes
the zero-divisor case explicit. -/
def SliderJoint.getMotorForce (j : SliderJoint) (timeStep : decimal) :
    Option decimal :=
  divD j.mImpulseMotor timeStep

/-- Modelled from the spec: the stabilization factor `BETA` ("a fixed
stabilization factor"), whose value is set in the missing
`SliderJoint.cpp`.  No claim depends on its concrete value. -/
def BETA : decimal := 1 / 5

/-- Modelled from the spec: `SliderJoint::resetLimits` ("the limit-reset
operation (zero the corresponding accumulated impulse)"), whose body is
in the missing `SliderJoint.cpp`.  It zeroes both accumulated limit
impulses. -/
def SliderJoint.resetLimits (j : SliderJoint) : SliderJoint :=
  { j with mImpulseLowerLimit := 0, mImpulseUpperLimit := 0 }

/-- Modelled from the spec: `SliderJoint::enableLimit` ("toggling the
limit ... enabled-flag ... resets the corresponding accumulated impulse
to zero before the next solve"); body in the missing `SliderJoint.cpp`.
A call that does not change the flag changes nothing. -/
def SliderJoint.enableLimit (j : SliderJoint) (isLimitEnabled : Bool) :
    SliderJoint :=
  if isLimitEnabled = j.mIsLimitEnabled then j
  else SliderJoint.resetLimits { j with mIsLimitEnabled := isLimitEnabled }

/-- Modelled from the spec: `SliderJoint::enableMotor` ("toggling the
... motor enabled-flag ... resets the corresponding accumulated impulse
to zero before the next solve"); body in the missing `SliderJoint.cpp`. -/
def SliderJoint.enableMotor (j : SliderJoint) (isMotorEnabled : Bool) :
    SliderJoint :=
  if isMotorEnabled = j.mIsMotorEnabled then j
  else { j with mIsMotorEnabled := isMotorEnabled, mImpulseMotor := 0 }

/-- Modelled from the spec: `SliderJoint::setLowerLimit` ("any mutation
that changes limit bounds ... must trigger the limit-reset behavior ...
before the next step's solve"); body in the missing `SliderJoint.cpp`. -/
def SliderJoint.setLowerLimit (j : SliderJoint) (lowerLimit : decimal) :
    SliderJoint :=
  if lowerLimit = j.mLowerLimit then j
  else SliderJoint.resetLimits { j with mLowerLimit := lowerLimit }

/-- Modelled from the spec: `SliderJoint::setUpperLimit` ("any mutation
that changes limit bounds ... must trigger the limit-reset behavior ...
before the next step's solve"); body in the missing `SliderJoint.cpp`. -/
def SliderJoint.setUpperLimit (j : SliderJoint) (upperLimit : decimal) :
    SliderJoint :=
  if upperLimit = j.mUpperLimit then j
  else SliderJoint.resetLimits { j with mUpperLimit := upperLimit }

/-- Modelled from the spec: `SliderJoint::setMotorSpeed`; body in the
missing `SliderJoint.cpp`.  Stores the new target speed. -/
def SliderJoint.setMotorSpeed (j : SliderJoint) (motorSpeed : decimal) :
    SliderJoint :=
  { j with mMotorSpeed := motorSpeed }

/-- Modelled from the spec: `SliderJoint::setMaxMotorForce`; body in the
missing `SliderJoint.cpp`.  Stores the new maximum motor force. -/
def SliderJoint.setMaxMotorForce (j : SliderJoint) (maxMotorForce : decimal) :
    SliderJoint :=
  { j with mMaxMotorForce := maxMotorForce }

/-- Modelled from the spec: the `SliderJoint` constructor (§4.1: "the
joint stores the anchor and axis converted into each body's local space,
captures the bodies' relative orientation, and derives an orthonormal
basis"); body in the missing `SliderJoint.cpp`.  The conversions into
local space depend on the bodies' transforms, which the model receives
as the functions `toLocal1`/`toLocal2` and `toLocalVec1`, and the
captured relative orientation as `orientationDifference`; the derived
local basis vectors arrive as `n1`/`n2` (their construction is modelled
separately over the reals for the orthonormality claim).  All
accumulated impulses start at zero and the limit/motor configuration is
copied from the `SliderJointInfo` record verbatim. -/
def createSliderJoint (info : SliderJointInfo)
    (toLocal1 toLocal2 toLocalVec1 : Vector3 → Vector3)
    (orientationDifference : Quaternion) (n1 n2 : Vector3) : SliderJoint :=
  { mLocalAnchorPointBody1 := toLocal1 info.anchorPointWorldSpace
    mLocalAnchorPointBody2 := toLocal2 info.anchorPointWorldSpace
    mSliderAxisBody1 := toLocalVec1 info.sliderAxisWorldSpace
    mInitOrientationDifference := orientationDifference
    mN1 := n1
    mN2 := n2
    mR1 := 0
    mR2 := 0
    mR2CrossN1 := 0
    mR2CrossN2 := 0
    mR2CrossSliderAxis := 0
    mR1PlusUCrossN1 := 0
    mR1PlusUCrossN2 := 0
    mR1PlusUCrossSliderAxis := 0
    mBTranslation := 0
    mBRotation := 0
    mBLowerLimit := 0
    mBUpperLimit := 0
    mInverseMassMatrixTranslationConstraint := none
    mInverseMassMatrixRotationConstraint := none
    mInverseMassMatrixLimit := none
    mInverseMassMatrixMotor := none
    mImpulseTranslation := 0
    mImpulseRotation := 0
    mImpulseLowerLimit := 0
    mImpulseUpperLimit := 0
    mImpulseMotor := 0
    mIsLimitEnabled := info.isLimitEnabled
    mIsMotorEnabled := info.isMotorEnabled
    mSliderAxisWorld := 0
    mLowerLimit := info.lowerLimit
    mUpperLimit := info.upperLimit
    mIsLowerLimitViolated := false
    mIsUpperLimitViolated := false
    mMotorSpeed := info.motorSpeed
    mMaxMotorForce := info.maxMotorForce }

/-- Modelled from the spec: the per-solve context of §4.2-§4.5 — the
joint together with the two bodies' linear velocities (`v1`, `v2`),
angular velocities (`w1`, `w2`), positions (`x1`, `x2`), inverse masses
(`m1inv`, `m2inv`), world-space inverse inertia tensors (`i1inv`,
`i2inv`) and the world-space images `n1World`/`n2World` of `mN1`/`mN2`
recomputed each step by `initBeforeSolve` (the recomputation itself is
in the missing `SliderJoint.cpp`). -/
structure SolverState where
  joint : SliderJoint
  v1 : Vector3
  v2 : Vector3
  w1 : Vector3
  w2 : Vector3
  x1 : Vector3
  x2 : Vector3
  m1inv : decimal
  m2inv : decimal
  i1inv : Matrix3x3
  i2inv : Matrix3x3
  n1World : Vector3
  n2World : Vector3
  deriving DecidableEq

/-- Modelled from the spec: `SliderJoint::initBeforeSolve` (§4.2); body
in the missing `SliderJoint.cpp`.  `R1`/`R2` are the bodies' current
orientation matrices and `rotError` the current rotation error relative
to `mInitOrientationDifference` (its quaternion computation is in the
missing code).  The phase recomputes the world-space axis and basis, the
lever arms, the cross-product terms, the inverse mass matrices (with
`K = J·M⁻¹·Jᵗ`; a non-invertible `K` is recorded as `none`, marking the
sub-constraint as skipped for the step), the Baumgarte bias terms scaled
by `BETA / dt`, and the limit-violation flags, zeroing an accumulated
limit impulse whose violation flag transitioned since the last step. -/
def initBeforeSolve (dt : decimal) (R1 R2 : Matrix3x3) (rotError : Vector3)
    (s : SolverState) : SolverState :=
  let j := s.joint
  let axisWorld := R1.mulVec j.mSliderAxisBody1
  let n1w := R1.mulVec j.mN1
  let n2w := R1.mulVec j.mN2
  let r1 := R1.mulVec j.mLocalAnchorPointBody1
  let r2 := R2.mulVec j.mLocalAnchorPointBody2
  let u := (s.x2 + r2) - (s.x1 + r1)
  let uDotAxis := dot u axisWorld
  let lowerLimitError := uDotAxis - j.mLowerLimit
  let upperLimitError := j.mUpperLimit - uDotAxis
  let isLowerViolated : Bool := decide (lowerLimitError ≤ 0)
  let isUpperViolated : Bool := decide (upperLimitError ≤ 0)
  let r2cn1 := cross r2 n1w
  let r2cn2 := cross r2 n2w
  let r2ca := cross r2 axisWorld
  let r1ucn1 := cross (r1 + u) n1w
  let r1ucn2 := cross (r1 + u) n2w
  let r1uca := cross (r1 + u) axisWorld
  let sumInvMass := s.m1inv + s.m2inv
  let kTrans : Matrix2x2 :=
    ⟨sumInvMass + dot r1ucn1 (s.i1inv.mulVec r1ucn1) + dot r2cn1 (s.i2inv.mulVec r2cn1),
     dot r1ucn1 (s.i1inv.mulVec r1ucn2) + dot r2cn1 (s.i2inv.mulVec r2cn2),
     dot r1ucn2 (s.i1inv.mulVec r1ucn1) + dot r2cn2 (s.i2inv.mulVec r2cn1),
     sumInvMass + dot r1ucn2 (s.i1inv.mulVec r1ucn2) + dot r2cn2 (s.i2inv.mulVec r2cn2)⟩
  let kRot : Matrix3x3 := s.i1inv + s.i2inv
  let kLimit : decimal :=
    sumInvMass + dot r1uca (s.i1inv.mulVec r1uca) + dot r2ca (s.i2inv.mulVec r2ca)
  let kMotor : decimal := sumInvMass
  let biasFactor := BETA / dt
  { s with
    joint :=
      { j with
        mSliderAxisWorld := axisWorld
        mR1 := r1
        mR2 := r2
        mR2CrossN1 := r2cn1
        mR2CrossN2 := r2cn2
        mR2CrossSliderAxis := r2ca
        mR1PlusUCrossN1 := r1ucn1
        mR1PlusUCrossN2 := r1ucn2
        mR1PlusUCrossSliderAxis := r1uca
        mInverseMassMatrixTranslationConstraint := kTrans.inverseOpt
        mInverseMassMatrixRotationConstraint := kRot.inverseOpt
        mInverseMassMatrixLimit := invOpt kLimit
        mInverseMassMatrixMotor := invOpt kMotor
        mBTranslation := biasFactor • (⟨dot u n1w, dot u n2w⟩ : Vector2)
        mBRotation := biasFactor • rotError
        mBLowerLimit := biasFactor * lowerLimitError
        mBUpperLimit := biasFactor * upperLimitError
        mIsLowerLimitViolated := isLowerViolated
        mIsUpperLimitViolated := isUpperViolated
        mImpulseLowerLimit :=
          if isLowerViolated = j.mIsLowerLimitViolated then j.mImpulseLowerLimit else 0
        mImpulseUpperLimit :=
          if isUpperViolated = j.mIsUpperLimitViolated then j.mImpulseUpperLimit else 0 }
    n1World := n1w
    n2World := n2w }

/-- Modelled from the spec: `SliderJoint::warmstart` (§4.3); body in the
missing `SliderJoint.cpp`.  Applies each sub-constraint's accumulated
impulse directly to both bodies' velocities, scaled by the inverse
masses and inertia tensors, before the velocity-solve pass. -/
def warmstart (s : SolverState) : SolverState :=
  let j := s.joint
  let axisImpulse := j.mImpulseLowerLimit - j.mImpulseUpperLimit + j.mImpulseMotor
  let linearImpulse :=
    j.mImpulseTranslation.x • s.n1World + j.mImpulseTranslation.y • s.n2World +
      axisImpulse • j.mSliderAxisWorld
  { s with
    v1 := s.v1 + s.m1inv • (-linearImpulse)
    v2 := s.v2 + s.m2inv • linearImpulse
    w1 := s.w1 + s.i1inv.mulVec (-j.mImpulseRotation)
    w2 := s.w2 + s.i2inv.mulVec j.mImpulseRotation }

/-- Modelled from the spec: the translational (2-DOF, bilateral)
sub-step of `SliderJoint::solveVelocityConstraint` (§4.4 item 1); body
in the missing `SliderJoint.cpp`.  The relative velocity along the two
basis normals, combined with the bias, is solved through the
precomputed 2x2 inverse mass matrix with no clamping; when that matrix
was singular (`none`) the sub-constraint is skipped. -/
def solveTranslationVel (s : SolverState) : SolverState :=
  match s.joint.mInverseMassMatrixTranslationConstraint with
  | none => s
  | some m =>
    let dv := s.v2 - s.v1
    let jv : Vector2 := ⟨dot s.n1World dv, dot s.n2World dv⟩
    let lambda := m.mulVec (-(jv + s.joint.mBTranslation))
    let p := lambda.x • s.n1World + lambda.y • s.n2World
    { s with
      joint := { s.joint with
        mImpulseTranslation := s.joint.mImpulseTranslation + lambda }
      v1 := s.v1 + s.m1inv • (-p)
      v2 := s.v2 + s.m2inv • p }

/-- Modelled from the spec: the rotational (3-DOF, bilateral) sub-step
of `SliderJoint::solveVelocityConstraint` (§4.4 item 2); body in the
missing `SliderJoint.cpp`.  A singular 3x3 mass matrix (`none`) skips
the sub-constraint. -/
def solveRotationVel (s : SolverState) : SolverState :=
  match s.joint.mInverseMassMatrixRotationConstraint with
  | none => s
  | some m =>
    let jw := s.w2 - s.w1
    let lambda := m.mulVec (-(jw + s.joint.mBRotation))
    { s with
      joint := { s.joint with
        mImpulseRotation := s.joint.mImpulseRotation + lambda }
      w1 := s.w1 + s.i1inv.mulVec (-lambda)
      w2 := s.w2 + s.i2inv.mulVec lambda }

/-- Modelled from the spec: the lower-limit (unilateral) sub-step of
`SliderJoint::solveVelocityConstraint` (§4.4 item 3); body in the
missing `SliderJoint.cpp`.  Evaluated only when the limits are enabled
and the lower limit is currently violated; the accumulated impulse is
clamped to stay non-negative and the applied delta is taken against the
accumulated total. -/
def solveLowerLimitVel (s : SolverState) : SolverState :=
  if s.joint.mIsLimitEnabled ∧ s.joint.mIsLowerLimitViolated then
    match s.joint.mInverseMassMatrixLimit with
    | none => s
    | some k =>
      let axis := s.joint.mSliderAxisWorld
      let jv := dot axis (s.v2 - s.v1)
      let deltaLambda := k * (-jv - s.joint.mBLowerLimit)
      let lambdaTemp := s.joint.mImpulseLowerLimit
      let newImpulse := max (lambdaTemp + deltaLambda) 0
      let dL := newImpulse - lambdaTemp
      let p := dL • axis
      { s with
        joint := { s.joint with mImpulseLowerLimit := newImpulse }
        v1 := s.v1 + s.m1inv • (-p)
        v2 := s.v2 + s.m2inv • p }
  else s

/-- Modelled from the spec: the upper-limit (unilateral) sub-step of
`SliderJoint::solveVelocityConstraint` (§4.4 item 3); body in the
missing `SliderJoint.cpp`.  Evaluated only when the limits are enabled
and the upper limit is currently violated; same non-negative clamp
against the accumulated total, with the impulse applied along the
opposite axis direction. -/
def solveUpperLimitVel (s : SolverState) : SolverState :=
  if s.joint.mIsLimitEnabled ∧ s.joint.mIsUpperLimitViolated then
    match s.joint.mInverseMassMatrixLimit with
    | none => s
    | some k =>
      let axis := s.joint.mSliderAxisWorld
      let jv := -dot axis (s.v2 - s.v1)
      let deltaLambda := k * (-jv - s.joint.mBUpperLimit)
      let lambdaTemp := s.joint.mImpulseUpperLimit
      let newImpulse := max (lambdaTemp + deltaLambda) 0
      let dL := newImpulse - lambdaTemp
      let p := dL • axis
      { s with
        joint := { s.joint with mImpulseUpperLimit := newImpulse }
        v1 := s.v1 + s.m1inv • p
        v2 := s.v2 + s.m2inv • (-p) }
  else s

/-- Modelled from the spec: the motor (bounded bilateral) sub-step of
`SliderJoint::solveVelocityConstraint` (§4.4 item 4); body in the
missing `SliderJoint.cpp`.  Evaluated only when the motor is enabled;
the impulse drives the axis-relative velocity toward the target motor
speed and the accumulated impulse is clamped to the bound
`maxMotorForce * timeStep` after adding the iteration's delta
(clamp-after-accumulate), the applied delta being the difference of
accumulated totals. -/
def solveMotorVel (dt : decimal) (s : SolverState) : SolverState :=
  if s.joint.mIsMotorEnabled then
    match s.joint.mInverseMassMatrixMotor with
    | none => s
    | some k =>
      let axis := s.joint.mSliderAxisWorld
      let jv := dot axis s.v1 - dot axis s.v2
      let maxMotorImpulse := s.joint.mMaxMotorForce * dt
      let deltaLambda := k * (-jv - s.joint.mMotorSpeed)
      let lambdaTemp := s.joint.mImpulseMotor
      let newImpulse :=
        clampD (lambdaTemp + deltaLambda) (-maxMotorImpulse) maxMotorImpulse
      let dL := newImpulse - lambdaTemp
      let p := dL • axis
      { s with
        joint := { s.joint with mImpulseMotor := newImpulse }
        v1 := s.v1 + s.m1inv • (-p)
        v2 := s.v2 + s.m2inv • p }
  else s

/-- Modelled from the spec: `SliderJoint::solveVelocityConstraint`
(§4.4); body in the missing `SliderJoint.cpp`.  The four sub-steps run
in the fixed order translation, rotation, lower limit, upper limit,
motor, each reading the velocity state left by the previous one
(sequential impulses). -/
def solveVelocityConstraint (dt : decimal) (s : SolverState) : SolverState :=
  solveMotorVel dt
    (solveUpperLimitVel (solveLowerLimitVel (solveRotationVel (solveTranslationVel s))))

/-- Modelled from the spec: `SliderJoint::solvePositionConstraint`
(§4.5); body in the missing `SliderJoint.cpp`.  Recomputes geometry and
the translational mass matrix fresh from the post-integration state and
applies the translational correction as a pseudo-displacement to the
positions; a singular mass matrix skips the correction.  Limits and
motor are not position-corrected; the rotational pseudo-rotation acts
on the bodies' orientations, which the state does not track. -/
def solvePositionConstraint (R1 R2 : Matrix3x3) (s : SolverState) : SolverState :=
  let j := s.joint
  let n1w := R1.mulVec j.mN1
  let n2w := R1.mulVec j.mN2
  let r1 := R1.mulVec j.mLocalAnchorPointBody1
  let r2 := R2.mulVec j.mLocalAnchorPointBody2
  let u := (s.x2 + r2) - (s.x1 + r1)
  let r2cn1 := cross r2 n1w
  let r2cn2 := cross r2 n2w
  let r1ucn1 := cross (r1 + u) n1w
  let r1ucn2 := cross (r1 + u) n2w
  let sumInvMass := s.m1inv + s.m2inv
  let kTrans : Matrix2x2 :=
    ⟨sumInvMass + dot r1ucn1 (s.i1inv.mulVec r1ucn1) + dot r2cn1 (s.i2inv.mulVec r2cn1),
     dot r1ucn1 (s.i1inv.mulVec r1ucn2) + dot r2cn1 (s.i2inv.mulVec r2cn2),
     dot r1ucn2 (s.i1inv.mulVec r1ucn1) + dot r2cn2 (s.i2inv.mulVec r2cn1),
     sumInvMass + dot r1ucn2 (s.i1inv.mulVec r1ucn2) + dot r2cn2 (s.i2inv.mulVec r2cn2)⟩
  let corr : Vector3 × Vector3 :=
    match kTrans.inverseOpt with
    | none => (s.x1, s.x2)
    | some m =>
      let errorTrans : Vector2 := ⟨dot u n1w, dot u n2w⟩
      let lambda := m.mulVec (-errorTrans)
      let p := lambda.x • n1w + lambda.y • n2w
      (s.x1 + s.m1inv • (-p), s.x2 + s.m2inv • p)
  { s with x1 := corr.1, x2 := corr.2 }

/-- Modelled from the spec: the parameters of a single bilateral
sub-constraint of the velocity solve (§4.4 items 1-2) — the two bodies'
inverse masses along the constrained direction and the Baumgarte bias
term.  Used to compare the step protocol with and without the warm-start
phase (§4.3, §8); the full Jacobian machinery is in the missing
`SliderJoint.cpp`. -/
structure BParams where
  m1inv : decimal
  m2inv : decimal
  bias : decimal
  deriving DecidableEq

/-- Modelled from the spec: the iteration state of a single bilateral
sub-constraint — the constrained velocity component of each body and
the accumulated impulse persisting across steps for warm-starting. -/
structure BState where
  u1 : decimal
  u2 : decimal
  lam : decimal
  deriving DecidableEq

/-- Effective mass `K = J·M⁻¹·Jᵗ` of the bilateral sub-constraint. -/
def BParams.effK (p : BParams) : decimal := p.m1inv + p.m2inv

/-- Modelled from the spec: the warm-start phase (§4.3) for the
bilateral sub-constraint — the previously accumulated impulse is
applied directly to both bodies' velocities, scaled by their inverse
masses. -/
def warmstartB (p : BParams) (s : BState) : BState :=
  { s with u1 := s.u1 - p.m1inv * s.lam, u2 := s.u2 + p.m2inv * s.lam }

/-- Modelled from the spec: one velocity-solve iteration (§4.4) of the
bilateral sub-constraint — the relative constrained velocity combined
with the bias is solved through the inverse effective mass with no
clamping, the impulse is applied to both bodies and accumulated. -/
def solveB (p : BParams) (s : BState) : BState :=
  let jv := s.u2 - s.u1
  let deltaLambda := -(jv + p.bias) * (1 / p.effK)
  { u1 := s.u1 - p.m1inv * deltaLambda
    u2 := s.u2 + p.m2inv * deltaLambda
    lam := s.lam + deltaLambda }

/-- Real-valued 3-component vector, used for the orthonormal-basis
construction, whose normalizations are genuinely real-valued (square
roots). -/
structure V3R where
  x : ℝ
  y : ℝ
  z : ℝ

instance : SMul ℝ V3R := ⟨fun c a => ⟨c * a.x, c * a.y, c * a.z⟩⟩

@[simp] lemma v3rsmul_x (c : ℝ) (a : V3R) : (c • a).x = c * a.x := rfl

@[simp] lemma v3rsmul_y (c : ℝ) (a : V3R) : (c • a).y = c * a.y := rfl

@[simp] lemma v3rsmul_z (c : ℝ) (a : V3R) : (c • a).z = c * a.z := rfl

/-- Dot product over the reals. -/
def dotR (a b : V3R) : ℝ := a.x * b.x + a.y * b.y + a.z * b.z

/-- Cross product over the reals. -/
def crossR (a b : V3R) : V3R :=
  ⟨a.y * b.z - a.z * b.y, a.z * b.x - a.x * b.z, a.x * b.y - a.y * b.x⟩

/-- Euclidean norm. -/
noncomputable def normR (v : V3R) : ℝ := Real.sqrt (dotR v v)

/-- Normalization of a vector (the library's `Vector3::normalize`). -/
noncomputable def normalizeR (v : V3R) : V3R := (normR v)⁻¹ • v

/-- Modelled from the spec: the seed vector for the basis construction
(§4.1 and the design note of §9: "pick the world axis least aligned
with the slider axis as the seed vector"); the concrete routine
(`Vector3::getOneUnitOrthogonalVector`) is in the missing mathematics
sources.  Returns the coordinate axis whose component in `a` is
smallest in magnitude. -/
noncomputable def seedR (a : V3R) : V3R :=
  if |a.x| ≤ |a.y| ∧ |a.x| ≤ |a.z| then ⟨1, 0, 0⟩
  else if |a.y| ≤ |a.z| then ⟨0, 1, 0⟩
  else ⟨0, 0, 1⟩

/-- Modelled from the spec: the unit slider axis stored at construction
(§4.1: the basis `{axis, n1, n2}` is orthonormal, so the axis is
normalized). -/
noncomputable def unitAxisR (axis : V3R) : V3R := normalizeR axis

/-- Modelled from the spec: the first basis normal `mN1` (§4.1: "n1/n2
obtained by constructing any vector not parallel to the axis and
orthogonalizing"); the cross product with the seed is orthogonal to the
axis and is then normalized. -/
noncomputable def localN1R (axis : V3R) : V3R :=
  normalizeR (crossR (unitAxisR axis) (seedR (unitAxisR axis)))

/-- Modelled from the spec: the second basis normal `mN2`, orthogonal
to the slider axis and to `mN1` (header line 135). -/
noncomputable def localN2R (axis : V3R) : V3R :=
  crossR (unitAxisR axis) (localN1R axis)

/-- Real-valued 3x3 matrix, the orientation of a body. -/
structure Mat3R where
  a11 : ℝ
  a12 : ℝ
  a13 : ℝ
  a21 : ℝ
  a22 : ℝ
  a23 : ℝ
  a31 : ℝ
  a32 : ℝ
  a33 : ℝ

/-- Matrix-vector product over the reals: the world-space image of a
body-local vector under the body's orientation. -/
def mulVecR (m : Mat3R) (v : V3R) : V3R :=
  ⟨m.a11 * v.x + m.a12 * v.y + m.a13 * v.z,
   m.a21 * v.x + m.a22 * v.y + m.a23 * v.z,
   m.a31 * v.x + m.a32 * v.y + m.a33 * v.z⟩

/-- Orthogonality of an orientation matrix: its columns are orthonormal
(`MᵗM = I`), the defining property of a rigid-body rotation. -/
def isOrthoR (m : Mat3R) : Prop :=
  m.a11 * m.a11 + m.a21 * m.a21 + m.a31 * m.a31 = 1 ∧
  m.a12 * m.a12 + m.a22 * m.a22 + m.a32 * m.a32 = 1 ∧
  m.a13 * m.a13 + m.a23 * m.a23 + m.a33 * m.a33 = 1 ∧
  m.a11 * m.a12 + m.a21 * m.a22 + m.a31 * m.a32 = 0 ∧
  m.a11 * m.a13 + m.a21 * m.a23 + m.a31 * m.a33 = 0 ∧
  m.a12 * m.a13 + m.a22 * m.a23 + m.a32 * m.a33 = 0

/-- View of the four joint fields fixed at construction: the two
local-space anchor points, the local-space slider axis and the initial
relative orientation. -/
def anchorView (j : SliderJoint) : Vector3 × Vector3 × Vector3 × Quaternion :=
  (j.mLocalAnchorPointBody1, j.mLocalAnchorPointBody2,
    j.mSliderAxisBody1, j.mInitOrientationDifference)

/-- View of the joint fields read or written by the motor sub-step:
accumulated motor impulse, enabled-flag, motor mass matrix, maximum
motor force, target speed, world axis. -/
def motorView (j : SliderJoint) :
    decimal × Bool × Option decimal × decimal × decimal × Vector3 :=
  (j.mImpulseMotor, j.mIsMotorEnabled, j.mInverseMassMatrixMotor,
    j.mMaxMotorForce, j.mMotorSpeed, j.mSliderAxisWorld)

/-- View of the two accumulated limit impulses. -/
def limitImpulses (j : SliderJoint) : decimal × decimal :=
  (j.mImpulseLowerLimit, j.mImpulseUpperLimit)

/-- Concrete joint used to instantiate theorems: built from the
no-limit/no-motor configuration record with identity body transforms. -/
def sampleJoint : SliderJoint :=
  createSliderJoint (mkInfoNoLimitNoMotor 0 1 ⟨0, 0, 0⟩ ⟨1, 0, 0⟩)
    id id id ⟨0, 0, 0, 1⟩ ⟨0, 1, 0⟩ ⟨0, 0, 1⟩

/-- Second concrete joint, agreeing with `sampleJoint` on the motor
impulse but differing elsewhere. -/
def sampleJoint2 : SliderJoint :=
  { sampleJoint with mLowerLimit := 5, mMotorSpeed := 3 }

/-- Concrete solver state used to instantiate theorems. -/
def sampleState : SolverState :=
  { joint := sampleJoint
    v1 := ⟨1, 0, 0⟩
    v2 := 0
    w1 := 0
    w2 := 0
    x1 := 0
    x2 := ⟨1, 0, 0⟩
    m1inv := 1
    m2inv := 1
    i1inv := 0
    i2inv := 0
    n1World := ⟨0, 1, 0⟩
    n2World := ⟨0, 0, 1⟩ }

/-- Concrete solver state whose joint has the motor enabled with a
nonzero accumulated motor impulse. -/
def motorState : SolverState :=
  { sampleState with
    joint := { sampleJoint with
      mIsMotorEnabled := true
      mInverseMassMatrixMotor := some (1 / 2)
      mMaxMotorForce := 10
      mImpulseMotor := 5 } }

/-- Concrete solver state in which both bodies are static: zero inverse
mass and zero inverse inertia tensor. -/
def staticState : SolverState :=
  { sampleState with m1inv := 0, m2inv := 0 }

/-- Joint in which only the motor sub-constraint is active (all other
inverse mass matrices skipped) and the accumulated motor impulse is
saturated at the clamp bound `maxMotorForce * dt = 10` for `dt = 1`. -/
def satJoint : SliderJoint :=
  { sampleJoint with
    mIsMotorEnabled := true
    mInverseMassMatrixMotor := some (1 / 2)
    mMaxMotorForce := 10
    mImpulseMotor := 10
    mSliderAxisWorld := ⟨1, 0, 0⟩ }

/-- Solver state on `satJoint` whose axis-relative velocity already
makes the saturated motor a fixed point of the velocity solve. -/
def satState : SolverState :=
  { sampleState with joint := satJoint, v1 := 0, v2 := ⟨1, 0, 0⟩ }

lemma motorView_solveTranslationVel (s : SolverState) :
    motorView (solveTranslationVel s).joint = motorView s.joint := by
  cases h : s.joint.mInverseMassMatrixTranslationConstraint <;>
    simp [solveTranslationVel, h, motorView]

lemma motorView_solveRotationVel (s : SolverState) :
    motorView (solveRotationVel s).joint = motorView s.joint := by
  cases h : s.joint.mInverseMassMatrixRotationConstraint <;>
    simp [solveRotationVel, h, motorView]

lemma motorView_solveLowerLimitVel (s : SolverState) :
    motorView (solveLowerLimitVel s).joint = motorView s.joint := by
  by_cases hg : (s.joint.mIsLimitEnabled ∧ s.joint.mIsLowerLimitViolated : Prop)
  · cases h : s.joint.mInverseMassMatrixLimit <;>
      simp [solveLowerLimitVel, hg, h, motorView]
  · simp [solveLowerLimitVel, hg]

lemma motorView_solveUpperLimitVel (s : SolverState) :
    motorView (solveUpperLimitVel s).joint = motorView s.joint := by
  by_cases hg : (s.joint.mIsLimitEnabled ∧ s.joint.mIsUpperLimitViolated : Prop)
  · cases h : s.joint.mInverseMassMatrixLimit <;>
      simp [solveUpperLimitVel, hg, h, motorView]
  · simp [solveUpperLimitVel, hg]

lemma limitImpulses_solveTranslationVel (s : SolverState) :
    limitImpulses (solveTranslationVel s).joint = limitImpulses s.joint := by
  cases h : s.joint.mInverseMassMatrixTranslationConstraint <;>
    simp [solveTranslationVel, h, limitImpulses]

lemma limitImpulses_solveRotationVel (s : SolverState) :
    limitImpulses (solveRotationVel s).joint = limitImpulses s.joint := by
  cases h : s.joint.mInverseMassMatrixRotationConstraint <;>
    simp [solveRotationVel, h, limitImpulses]

lemma limitImpulses_solveMotorVel (dt : decimal) (s : SolverState) :
    limitImpulses (solveMotorVel dt s).joint = limitImpulses s.joint := by
  by_cases hg : (s.joint.mIsMotorEnabled : Prop)
  · cases h : s.joint.mInverseMassMatrixMotor <;>
      simp [solveMotorVel, hg, h, limitImpulses]
  · simp [solveMotorVel, hg]

lemma solveLowerLimitVel_lower_nonneg (s : SolverState)
    (h : 0 ≤ s.joint.mImpulseLowerLimit) :
    0 ≤ (solveLowerLimitVel s).joint.mImpulseLowerLimit := by
  by_cases hg : (s.joint.mIsLimitEnabled ∧ s.joint.mIsLowerLimitViolated : Prop)
  · cases hm : s.joint.mInverseMassMatrixLimit
    · simpa [solveLowerLimitVel, hg, hm] using h
    · simp [solveLowerLimitVel, hg, hm]
  · simpa [solveLowerLimitVel, hg] using h

lemma solveLowerLimitVel_upper_eq (s : SolverState) :
    (solveLowerLimitVel s).joint.mImpulseUpperLimit = s.joint.mImpulseUpperLimit := by
  by_cases hg : (s.joint.mIsLimitEnabled ∧ s.joint.mIsLowerLimitViolated : Prop)
  · cases hm : s.joint.mInverseMassMatrixLimit <;> simp [solveLowerLimitVel, hg, hm]
  · simp [solveLowerLimitVel, hg]

lemma solveUpperLimitVel_upper_nonneg (s : SolverState)
    (h : 0 ≤ s.joint.mImpulseUpperLimit) :
    0 ≤ (solveUpperLimitVel s).joint.mImpulseUpperLimit := by
  by_cases hg : (s.joint.mIsLimitEnabled ∧ s.joint.mIsUpperLimitViolated : Prop)
  · cases hm : s.joint.mInverseMassMatrixLimit
    · simpa [solveUpperLimitVel, hg, hm] using h
    · simp [solveUpperLimitVel, hg, hm]
  · simpa [solveUpperLimitVel, hg] using h

lemma solveUpperLimitVel_lower_eq (s : SolverState) :
    (solveUpperLimitVel s).joint.mImpulseLowerLimit = s.joint.mImpulseLowerLimit := by
  by_cases hg : (s.joint.mIsLimitEnabled ∧ s.joint.mIsUpperLimitViolated : Prop)
  · cases hm : s.joint.mInverseMassMatrixLimit <;> simp [solveUpperLimitVel, hg, hm]
  · simp [solveUpperLimitVel, hg]

lemma abs_clampD_le (x b : decimal) (hb : 0 ≤ b) : |clampD x (-b) b| ≤ b := by
  rw [abs_le]
  constructor
  · exact le_min (le_max_right x (-b)) (neg_le_self hb)
  · exact min_le_right _ _

/-- C1: `getMotorForce(timeStep)` returns the accumulated motor impulse
divided by `timeStep`, and reads no joint state other than
`mImpulseMotor` (two joints with the same accumulated motor impulse
yield the same result); as a pure function of the joint it modifies no
state. -/
theorem getMotorForce_returns_motor_impulse_div_timeStep
    (j j' : SliderJoint) (timeStep : decimal) (ht : timeStep ≠ 0)
    (hsame : j.mImpulseMotor = j'.mImpulseMotor) :
    j.getMotorForce timeStep = some (j.mImpulseMotor / timeStep) ∧
    j'.getMotorForce timeStep = j.getMotorForce timeStep := by
  constructor
  · simp [SliderJoint.getMotorForce, divD, ht]
  · simp [SliderJoint.getMotorForce, divD, hsame]

/-- Witness for C1: the two sample joints agree on the motor impulse
and `timeStep = 2` is nonzero. -/
theorem getMotorForce_returns_motor_impulse_div_timeStep_witness :
    ((2 : decimal) ≠ 0 ∧ sampleJoint.mImpulseMotor = sampleJoint2.mImpulseMotor) ∧
    (sampleJoint.getMotorForce 2 = some (sampleJoint.mImpulseMotor / 2) ∧
      sampleJoint2.getMotorForce 2 = sampleJoint.getMotorForce 2) :=
  ⟨⟨by decide, by decide⟩,
    getMotorForce_returns_motor_impulse_div_timeStep sampleJoint sampleJoint2 2
      (by decide) (by decide)⟩

/-- Counterexample for C2: the `SliderJointInfo` constructor with
limits accepts a lower limit strictly greater than the upper limit and
stores both verbatim, and the constructor with motor accepts and stores
a negative maximum motor force — no rejection or clamping happens at
configuration time. -/
theorem sliderJointInfo_accepts_invalid_configuration :
    (mkInfoWithLimits 0 1 ⟨0, 0, 0⟩ ⟨1, 0, 0⟩ 2 1).lowerLimit = 2 ∧
    (mkInfoWithLimits 0 1 ⟨0, 0, 0⟩ ⟨1, 0, 0⟩ 2 1).upperLimit = 1 ∧
    ¬ ((mkInfoWithLimits 0 1 ⟨0, 0, 0⟩ ⟨1, 0, 0⟩ 2 1).lowerLimit ≤
        (mkInfoWithLimits 0 1 ⟨0, 0, 0⟩ ⟨1, 0, 0⟩ 2 1).upperLimit) ∧
    (mkInfoWithLimitsAndMotor 0 1 ⟨0, 0, 0⟩ ⟨1, 0, 0⟩ (-1) 1 0 (-3)).maxMotorForce = -3 ∧
    ¬ (0 ≤ (mkInfoWithLimitsAndMotor 0 1 ⟨0, 0, 0⟩ ⟨1, 0, 0⟩ (-1) 1 0 (-3)).maxMotorForce) := by
  refine ⟨rfl, rfl, by decide, rfl, by decide⟩

/-- C2 (amended): the `SliderJointInfo` constructors perform no
validation — each stores the limit and motor parameters it receives (or
its fixed defaults) verbatim, so invalid configurations pass through
configuration time unmodified. -/
theorem sliderJointInfo_constructors_store_values_verbatim
    (b1 b2 : Nat) (anchor axis : Vector3) (lo hi sp f : decimal) :
    ((mkInfoWithLimits b1 b2 anchor axis lo hi).lowerLimit = lo ∧
      (mkInfoWithLimits b1 b2 anchor axis lo hi).upperLimit = hi ∧
      (mkInfoWithLimits b1 b2 anchor axis lo hi).maxMotorForce = 0) ∧
    ((mkInfoWithLimitsAndMotor b1 b2 anchor axis lo hi sp f).lowerLimit = lo ∧
      (mkInfoWithLimitsAndMotor b1 b2 anchor axis lo hi sp f).upperLimit = hi ∧
      (mkInfoWithLimitsAndMotor b1 b2 anchor axis lo hi sp f).motorSpeed = sp ∧
      (mkInfoWithLimitsAndMotor b1 b2 anchor axis lo hi sp f).maxMotorForce = f) ∧
    ((mkInfoNoLimitNoMotor b1 b2 anchor axis).lowerLimit = -1 ∧
      (mkInfoNoLimitNoMotor b1 b2 anchor axis).upperLimit = 1 ∧
      (mkInfoNoLimitNoMotor b1 b2 anchor axis).maxMotorForce = 0) :=
  ⟨⟨rfl, rfl, rfl⟩, ⟨rfl, rfl, rfl, rfl⟩, ⟨rfl, rfl, rfl⟩⟩

/-- C10: `getMotorForce` divides by its argument with no guard — the
result is undefined (`none`) exactly when `timeStep = 0`, so the
interface is total precisely under the implicit precondition
`timeStep ≠ 0`. -/
theorem getMotorForce_total_iff_timeStep_ne_zero
    (j : SliderJoint) (timeStep : decimal) :
    j.getMotorForce timeStep = none ↔ timeStep = 0 := by
  by_cases h : timeStep = 0 <;>
    simp [SliderJoint.getMotorForce, divD, h]

/-- C5: every mutation that changes the limit bounds or the limit/motor
enabled-state zeroes the corresponding accumulated impulse(s), so no
impulse accumulated under the previous configuration is warm-started
after the change. -/
theorem mutation_resets_accumulated_impulses
    (j : SliderJoint) (b c : Bool) (lo hi : decimal)
    (hb : b ≠ j.mIsLimitEnabled) (hc : c ≠ j.mIsMotorEnabled)
    (hlo : lo ≠ j.mLowerLimit) (hhi : hi ≠ j.mUpperLimit) :
    ((j.enableLimit b).mImpulseLowerLimit = 0 ∧
      (j.enableLimit b).mImpulseUpperLimit = 0) ∧
    (j.enableMotor c).mImpulseMotor = 0 ∧
    ((j.setLowerLimit lo).mImpulseLowerLimit = 0 ∧
      (j.setLowerLimit lo).mImpulseUpperLimit = 0) ∧
    ((j.setUpperLimit hi).mImpulseLowerLimit = 0 ∧
      (j.setUpperLimit hi).mImpulseUpperLimit = 0) := by
  refine ⟨⟨?_, ?_⟩, ?_, ⟨?_, ?_⟩, ⟨?_, ?_⟩⟩ <;>
    simp [SliderJoint.enableLimit, SliderJoint.enableMotor,
      SliderJoint.setLowerLimit, SliderJoint.setUpperLimit,
      SliderJoint.resetLimits, hb, hc, hlo, hhi]

/-- Witness for C5: toggling both flags and moving both bounds on the
sample joint (limits/motor disabled, bounds -1 and 1) zeroes the
corresponding accumulated impulses. -/
theorem mutation_resets_accumulated_impulses_witness :
    (true ≠ sampleJoint.mIsLimitEnabled ∧ true ≠ sampleJoint.mIsMotorEnabled ∧
      (0 : decimal) ≠ sampleJoint.mLowerLimit ∧ (2 : decimal) ≠ sampleJoint.mUpperLimit) ∧
    (((sampleJoint.enableLimit true).mImpulseLowerLimit = 0 ∧
        (sampleJoint.enableLimit true).mImpulseUpperLimit = 0) ∧
      (sampleJoint.enableMotor true).mImpulseMotor = 0 ∧
      ((sampleJoint.setLowerLimit 0).mImpulseLowerLimit = 0 ∧
        (sampleJoint.setLowerLimit 0).mImpulseUpperLimit = 0) ∧
      ((sampleJoint.setUpperLimit 2).mImpulseLowerLimit = 0 ∧
        (sampleJoint.setUpperLimit 2).mImpulseUpperLimit = 0)) :=
  ⟨⟨by decide, by decide, by decide, by decide⟩,
    mutation_resets_accumulated_impulses sampleJoint true true 0 2
      (by decide) (by decide) (by decide) (by decide)⟩

/-- C3: with maximum motor force `F` and time delta `dt`, after a call
to `solveVelocityConstraint` the magnitude of the accumulated motor
impulse is at most `F * dt`, and when the motor sub-step runs the new
accumulated impulse is the clamp of the accumulated total plus the
iteration's delta (clamp-after-accumulate, not a clamp of the delta
alone added to the total). -/
theorem solveVelocityConstraint_motor_impulse_bounded
    (dt : decimal) (s : SolverState)
    (hb : 0 ≤ s.joint.mMaxMotorForce * dt)
    (hold : |s.joint.mImpulseMotor| ≤ s.joint.mMaxMotorForce * dt) :
    |(solveVelocityConstraint dt s).joint.mImpulseMotor| ≤
      s.joint.mMaxMotorForce * dt ∧
    (s.joint.mIsMotorEnabled = true →
      ∀ k, s.joint.mInverseMassMatrixMotor = some k →
        ∃ delta, (solveVelocityConstraint dt s).joint.mImpulseMotor =
          clampD (s.joint.mImpulseMotor + delta)
            (-(s.joint.mMaxMotorForce * dt)) (s.joint.mMaxMotorForce * dt)) := by
  have hview : motorView (solveUpperLimitVel (solveLowerLimitVel
      (solveRotationVel (solveTranslationVel s)))).joint = motorView s.joint := by
    rw [motorView_solveUpperLimitVel, motorView_solveLowerLimitVel,
      motorView_solveRotationVel, motorView_solveTranslationVel]
  set s4 := solveUpperLimitVel (solveLowerLimitVel
    (solveRotationVel (solveTranslationVel s))) with hs4
  have himp : s4.joint.mImpulseMotor = s.joint.mImpulseMotor :=
    congrArg (fun p => p.1) hview
  have hen : s4.joint.mIsMotorEnabled = s.joint.mIsMotorEnabled :=
    congrArg (fun p => p.2.1) hview
  have hmat : s4.joint.mInverseMassMatrixMotor = s.joint.mInverseMassMatrixMotor :=
    congrArg (fun p => p.2.2.1) hview
  have hF : s4.joint.mMaxMotorForce = s.joint.mMaxMotorForce :=
    congrArg (fun p => p.2.2.2.1) hview
  have hunfold : solveVelocityConstraint dt s = solveMotorVel dt s4 := rfl
  constructor
  · by_cases henb : s4.joint.mIsMotorEnabled = true
    · cases hm4 : s4.joint.mInverseMassMatrixMotor with
      | none =>
        rw [hunfold]
        simp only [solveMotorVel, henb, if_true, hm4]
        rw [himp]; exact hold
      | some k =>
        rw [hunfold]
        simp only [solveMotorVel, henb, if_true, hm4]
        rw [hF]
        exact abs_clampD_le _ _ hb
    · rw [hunfold]
      simp only [solveMotorVel, if_neg henb]
      rw [himp]
      exact hold
  · intro hen' k hk
    have henb : s4.joint.mIsMotorEnabled = true := by rw [hen]; exact hen'
    have hm4 : s4.joint.mInverseMassMatrixMotor = some k := by rw [hmat]; exact hk
    rw [hunfold]
    refine ⟨k * (-(dot s4.joint.mSliderAxisWorld s4.v1 -
      dot s4.joint.mSliderAxisWorld s4.v2) - s4.joint.mMotorSpeed), ?_⟩
    simp only [solveMotorVel, henb, if_true, hm4]
    rw [himp, hF]

/-- Witness for C3: the motorized sample state with `dt = 1`, maximum
motor force 10 and accumulated motor impulse 5 satisfies both
hypotheses, and the theorem bounds the impulse after the solve. -/
theorem solveVelocityConstraint_motor_impulse_bounded_witness :
    (0 ≤ motorState.joint.mMaxMotorForce * 1 ∧
      |motorState.joint.mImpulseMotor| ≤ motorState.joint.mMaxMotorForce * 1) ∧
    (|(solveVelocityConstraint 1 motorState).joint.mImpulseMotor| ≤
        motorState.joint.mMaxMotorForce * 1 ∧
      (motorState.joint.mIsMotorEnabled = true →
        ∀ k, motorState.joint.mInverseMassMatrixMotor = some k →
          ∃ delta, (solveVelocityConstraint 1 motorState).joint.mImpulseMotor =
            clampD (motorState.joint.mImpulseMotor + delta)
              (-(motorState.joint.mMaxMotorForce * 1))
              (motorState.joint.mMaxMotorForce * 1))) :=
  ⟨⟨by norm_num [motorState, sampleState, sampleJoint, createSliderJoint,
      mkInfoNoLimitNoMotor],
    by norm_num [motorState, sampleState, sampleJoint, createSliderJoint,
      mkInfoNoLimitNoMotor]⟩,
    solveVelocityConstraint_motor_impulse_bounded 1 motorState
      (by norm_num [motorState, sampleState, sampleJoint, createSliderJoint,
        mkInfoNoLimitNoMotor])
      (by norm_num [motorState, sampleState, sampleJoint, createSliderJoint,
        mkInfoNoLimitNoMotor])⟩

/-- C4: the limit sub-steps of `solveVelocityConstraint` run only when
the limits are enabled and the corresponding limit is currently
violated (otherwise they leave the state untouched), and the
accumulated lower- and upper-limit impulses stay non-negative across a
solve iteration. -/
theorem solveVelocityConstraint_limit_impulses_nonneg
    (dt : decimal) (s : SolverState)
    (hl : 0 ≤ s.joint.mImpulseLowerLimit)
    (hu : 0 ≤ s.joint.mImpulseUpperLimit) :
    0 ≤ (solveVelocityConstraint dt s).joint.mImpulseLowerLimit ∧
    0 ≤ (solveVelocityConstraint dt s).joint.mImpulseUpperLimit ∧
    (∀ t : SolverState,
      ¬(t.joint.mIsLimitEnabled = true ∧ t.joint.mIsLowerLimitViolated = true) →
        solveLowerLimitVel t = t) ∧
    (∀ t : SolverState,
      ¬(t.joint.mIsLimitEnabled = true ∧ t.joint.mIsUpperLimitViolated = true) →
        solveUpperLimitVel t = t) := by
  have hpre : limitImpulses (solveRotationVel (solveTranslationVel s)).joint =
      limitImpulses s.joint := by
    rw [limitImpulses_solveRotationVel, limitImpulses_solveTranslationVel]
  set s2 := solveRotationVel (solveTranslationVel s) with hs2
  have hl2 : 0 ≤ s2.joint.mImpulseLowerLimit := by
    have := congrArg (fun p => p.1) hpre
    simp only [limitImpulses] at this
    rw [this]; exact hl
  have hu2 : 0 ≤ s2.joint.mImpulseUpperLimit := by
    have := congrArg (fun p => p.2) hpre
    simp only [limitImpulses] at this
    rw [this]; exact hu
  have hl3 : 0 ≤ (solveLowerLimitVel s2).joint.mImpulseLowerLimit :=
    solveLowerLimitVel_lower_nonneg s2 hl2
  have hu3 : 0 ≤ (solveLowerLimitVel s2).joint.mImpulseUpperLimit := by
    rw [solveLowerLimitVel_upper_eq]; exact hu2
  have hl4 : 0 ≤ (solveUpperLimitVel (solveLowerLimitVel s2)).joint.mImpulseLowerLimit := by
    rw [solveUpperLimitVel_lower_eq]; exact hl3
  have hu4 : 0 ≤ (solveUpperLimitVel (solveLowerLimitVel s2)).joint.mImpulseUpperLimit :=
    solveUpperLimitVel_upper_nonneg _ hu3
  have hfin : limitImpulses (solveVelocityConstraint dt s).joint =
      limitImpulses (solveUpperLimitVel (solveLowerLimitVel s2)).joint := by
    have : solveVelocityConstraint dt s =
        solveMotorVel dt (solveUpperLimitVel (solveLowerLimitVel s2)) := rfl
    rw [this, limitImpulses_solveMotorVel]
  have hfin1 := congrArg (fun p => p.1) hfin
  have hfin2 := congrArg (fun p => p.2) hfin
  simp only [limitImpulses] at hfin1 hfin2
  refine ⟨by rw [hfin1]; exact hl4, by rw [hfin2]; exact hu4, ?_, ?_⟩
  · intro t ht
    simp only [solveLowerLimitVel]
    rw [if_neg (by simpa using ht)]
  · intro t ht
    simp only [solveUpperLimitVel]
    rw [if_neg (by simpa using ht)]

/-- Witness for C4: the sample state has both accumulated limit
impulses equal to zero, satisfying the hypotheses at `dt = 1`. -/
theorem solveVelocityConstraint_limit_impulses_nonneg_witness :
    (0 ≤ sampleState.joint.mImpulseLowerLimit ∧
      0 ≤ sampleState.joint.mImpulseUpperLimit) ∧
    (0 ≤ (solveVelocityConstraint 1 sampleState).joint.mImpulseLowerLimit ∧
      0 ≤ (solveVelocityConstraint 1 sampleState).joint.mImpulseUpperLimit ∧
      (∀ t : SolverState,
        ¬(t.joint.mIsLimitEnabled = true ∧ t.joint.mIsLowerLimitViolated = true) →
          solveLowerLimitVel t = t) ∧
      (∀ t : SolverState,
        ¬(t.joint.mIsLimitEnabled = true ∧ t.joint.mIsUpperLimitViolated = true) →
          solveUpperLimitVel t = t)) :=
  ⟨⟨by decide, by decide⟩,
    solveVelocityConstraint_limit_impulses_nonneg 1 sampleState
      (by decide) (by decide)⟩

lemma dot_mulVec_zero (a b : Vector3) : dot a (Matrix3x3.mulVec 0 b) = 0 := by
  simp [dot, Matrix3x3.mulVec]

lemma solveTranslationVel_skip (s : SolverState)
    (h : s.joint.mInverseMassMatrixTranslationConstraint = none) :
    solveTranslationVel s = s := by
  simp [solveTranslationVel, h]

lemma solveRotationVel_skip (s : SolverState)
    (h : s.joint.mInverseMassMatrixRotationConstraint = none) :
    solveRotationVel s = s := by
  simp [solveRotationVel, h]

lemma solveLowerLimitVel_skip (s : SolverState)
    (h : s.joint.mInverseMassMatrixLimit = none) :
    solveLowerLimitVel s = s := by
  by_cases hg : (s.joint.mIsLimitEnabled ∧ s.joint.mIsLowerLimitViolated : Prop) <;>
    simp [solveLowerLimitVel, hg, h]

lemma solveUpperLimitVel_skip (s : SolverState)
    (h : s.joint.mInverseMassMatrixLimit = none) :
    solveUpperLimitVel s = s := by
  by_cases hg : (s.joint.mIsLimitEnabled ∧ s.joint.mIsUpperLimitViolated : Prop) <;>
    simp [solveUpperLimitVel, hg, h]

lemma solveMotorVel_skip (dt : decimal) (s : SolverState)
    (h : s.joint.mInverseMassMatrixMotor = none) :
    solveMotorVel dt s = s := by
  by_cases hg : (s.joint.mIsMotorEnabled : Prop) <;>
    simp [solveMotorVel, hg, h]

/-- C6: when both bodies are fully static (zero inverse mass and zero
inverse inertia tensor) every effective-mass matrix `K = J·M⁻¹·Jᵗ` is
singular; `initBeforeSolve` records all four inverse mass matrices as
skipped (`none`), the velocity solve then changes nothing (no division
by zero, no correction written into either body's velocities), and the
position solve likewise leaves both positions unchanged. -/
theorem singular_mass_matrices_skip_corrections
    (dt : decimal) (R1 R2 : Matrix3x3) (rotError : Vector3) (s : SolverState)
    (hm1 : s.m1inv = 0) (hm2 : s.m2inv = 0)
    (hi1 : s.i1inv = 0) (hi2 : s.i2inv = 0) :
    ((initBeforeSolve dt R1 R2 rotError s).joint.mInverseMassMatrixTranslationConstraint = none ∧
      (initBeforeSolve dt R1 R2 rotError s).joint.mInverseMassMatrixRotationConstraint = none ∧
      (initBeforeSolve dt R1 R2 rotError s).joint.mInverseMassMatrixLimit = none ∧
      (initBeforeSolve dt R1 R2 rotError s).joint.mInverseMassMatrixMotor = none) ∧
    solveVelocityConstraint dt (initBeforeSolve dt R1 R2 rotError s) =
      initBeforeSolve dt R1 R2 rotError s ∧
    solvePositionConstraint R1 R2 s = s := by
  have hmain : (initBeforeSolve dt R1 R2 rotError s).joint.mInverseMassMatrixTranslationConstraint = none ∧
      (initBeforeSolve dt R1 R2 rotError s).joint.mInverseMassMatrixRotationConstraint = none ∧
      (initBeforeSolve dt R1 R2 rotError s).joint.mInverseMassMatrixLimit = none ∧
      (initBeforeSolve dt R1 R2 rotError s).joint.mInverseMassMatrixMotor = none := by
    refine ⟨?_, ?_, ?_, ?_⟩ <;>
      simp [initBeforeSolve, hm1, hm2, hi1, hi2, dot_mulVec_zero,
        Matrix2x2.inverseOpt, Matrix2x2.det, Matrix3x3.inverseOpt,
        Matrix3x3.det, invOpt]
  obtain ⟨h1, h2, h3, h4⟩ := hmain
  refine ⟨⟨h1, h2, h3, h4⟩, ?_, ?_⟩
  · show solveMotorVel dt (solveUpperLimitVel (solveLowerLimitVel
      (solveRotationVel (solveTranslationVel (initBeforeSolve dt R1 R2 rotError s))))) =
      initBeforeSolve dt R1 R2 rotError s
    rw [solveTranslationVel_skip _ h1, solveRotationVel_skip _ h2,
      solveLowerLimitVel_skip _ h3, solveUpperLimitVel_skip _ h3,
      solveMotorVel_skip dt _ h4]
  · rcases s with ⟨j, v1, v2, w1, w2, x1, x2, m1, m2, i1, i2, nw1, nw2⟩
    dsimp only at hm1 hm2 hi1 hi2
    subst hm1; subst hm2; subst hi1; subst hi2
    simp [solvePositionConstraint, dot_mulVec_zero,
      Matrix2x2.inverseOpt, Matrix2x2.det]

/-- Witness for C6: the static sample state (both bodies immovable)
with identity orientations.  All four inverse mass matrices come out
skipped and both solve passes are no-ops. -/
theorem singular_mass_matrices_skip_corrections_witness :
    (staticState.m1inv = 0 ∧ staticState.m2inv = 0 ∧
      staticState.i1inv = 0 ∧ staticState.i2inv = 0) ∧
    (((initBeforeSolve 1 ⟨1, 0, 0, 0, 1, 0, 0, 0, 1⟩ ⟨1, 0, 0, 0, 1, 0, 0, 0, 1⟩ 0
          staticState).joint.mInverseMassMatrixTranslationConstraint = none ∧
      (initBeforeSolve 1 ⟨1, 0, 0, 0, 1, 0, 0, 0, 1⟩ ⟨1, 0, 0, 0, 1, 0, 0, 0, 1⟩ 0
          staticState).joint.mInverseMassMatrixRotationConstraint = none ∧
      (initBeforeSolve 1 ⟨1, 0, 0, 0, 1, 0, 0, 0, 1⟩ ⟨1, 0, 0, 0, 1, 0, 0, 0, 1⟩ 0
          staticState).joint.mInverseMassMatrixLimit = none ∧
      (initBeforeSolve 1 ⟨1, 0, 0, 0, 1, 0, 0, 0, 1⟩ ⟨1, 0, 0, 0, 1, 0, 0, 0, 1⟩ 0
          staticState).joint.mInverseMassMatrixMotor = none) ∧
    solveVelocityConstraint 1
        (initBeforeSolve 1 ⟨1, 0, 0, 0, 1, 0, 0, 0, 1⟩ ⟨1, 0, 0, 0, 1, 0, 0, 0, 1⟩ 0
          staticState) =
      initBeforeSolve 1 ⟨1, 0, 0, 0, 1, 0, 0, 0, 1⟩ ⟨1, 0, 0, 0, 1, 0, 0, 0, 1⟩ 0
        staticState ∧
    solvePositionConstraint ⟨1, 0, 0, 0, 1, 0, 0, 0, 1⟩ ⟨1, 0, 0, 0, 1, 0, 0, 0, 1⟩
        staticState = staticState) :=
  ⟨⟨rfl, rfl, rfl, rfl⟩,
    singular_mass_matrices_skip_corrections 1 ⟨1, 0, 0, 0, 1, 0, 0, 0, 1⟩
      ⟨1, 0, 0, 0, 1, 0, 0, 0, 1⟩ 0 staticState rfl rfl rfl rfl⟩

lemma anchorView_solveTranslationVel (s : SolverState) :
    anchorView (solveTranslationVel s).joint = anchorView s.joint := by
  cases h : s.joint.mInverseMassMatrixTranslationConstraint <;>
    simp [solveTranslationVel, h, anchorView]

lemma anchorView_solveRotationVel (s : SolverState) :
    anchorView (solveRotationVel s).joint = anchorView s.joint := by
  cases h : s.joint.mInverseMassMatrixRotationConstraint <;>
    simp [solveRotationVel, h, anchorView]

lemma anchorView_solveLowerLimitVel (s : SolverState) :
    anchorView (solveLowerLimitVel s).joint = anchorView s.joint := by
  by_cases hg : (s.joint.mIsLimitEnabled ∧ s.joint.mIsLowerLimitViolated : Prop)
  · cases h : s.joint.mInverseMassMatrixLimit <;>
      simp [solveLowerLimitVel, hg, h, anchorView]
  · simp [solveLowerLimitVel, hg]

lemma anchorView_solveUpperLimitVel (s : SolverState) :
    anchorView (solveUpperLimitVel s).joint = anchorView s.joint := by
  by_cases hg : (s.joint.mIsLimitEnabled ∧ s.joint.mIsUpperLimitViolated : Prop)
  · cases h : s.joint.mInverseMassMatrixLimit <;>
      simp [solveUpperLimitVel, hg, h, anchorView]
  · simp [solveUpperLimitVel, hg]

lemma anchorView_solveMotorVel (dt : decimal) (s : SolverState) :
    anchorView (solveMotorVel dt s).joint = anchorView s.joint := by
  by_cases hg : (s.joint.mIsMotorEnabled : Prop)
  · cases h : s.joint.mInverseMassMatrixMotor <;>
      simp [solveMotorVel, hg, h, anchorView]
  · simp [solveMotorVel, hg]

/-- C8: the local-space anchor points, the local-space slider axis and
the initial relative orientation are set at construction and are left
unchanged by every subsequent operation of the joint — every mutator,
the limit reset, and all four solve phases. -/
theorem construction_fields_never_change
    (j : SliderJoint) (b c : Bool) (lo hi sp f dt : decimal)
    (R1 R2 : Matrix3x3) (rotError : Vector3) (s : SolverState)
    (info : SliderJointInfo) (t1 t2 t3 : Vector3 → Vector3)
    (q : Quaternion) (n1 n2 : Vector3) :
    anchorView (j.enableLimit b) = anchorView j ∧
    anchorView (j.enableMotor c) = anchorView j ∧
    anchorView (j.setLowerLimit lo) = anchorView j ∧
    anchorView (j.setUpperLimit hi) = anchorView j ∧
    anchorView (j.setMotorSpeed sp) = anchorView j ∧
    anchorView (j.setMaxMotorForce f) = anchorView j ∧
    anchorView j.resetLimits = anchorView j ∧
    anchorView (initBeforeSolve dt R1 R2 rotError s).joint = anchorView s.joint ∧
    anchorView (warmstart s).joint = anchorView s.joint ∧
    anchorView (solveVelocityConstraint dt s).joint = anchorView s.joint ∧
    anchorView (solvePositionConstraint R1 R2 s).joint = anchorView s.joint ∧
    anchorView (createSliderJoint info t1 t2 t3 q n1 n2) =
      (t1 info.anchorPointWorldSpace, t2 info.anchorPointWorldSpace,
        t3 info.sliderAxisWorldSpace, q) := by
  refine ⟨?_, ?_, ?_, ?_, ?_, ?_, ?_, ?_, ?_, ?_, ?_, ?_⟩
  · by_cases hb : b = j.mIsLimitEnabled <;>
      simp [SliderJoint.enableLimit, SliderJoint.resetLimits, hb, anchorView]
  · by_cases hc : c = j.mIsMotorEnabled <;>
      simp [SliderJoint.enableMotor, hc, anchorView]
  · by_cases hlo : lo = j.mLowerLimit <;>
      simp [SliderJoint.setLowerLimit, SliderJoint.resetLimits, hlo, anchorView]
  · by_cases hhi : hi = j.mUpperLimit <;>
      simp [SliderJoint.setUpperLimit, SliderJoint.resetLimits, hhi, anchorView]
  · simp [SliderJoint.setMotorSpeed, anchorView]
  · simp [SliderJoint.setMaxMotorForce, anchorView]
  · simp [SliderJoint.resetLimits, anchorView]
  · simp [initBeforeSolve, anchorView]
  · simp [warmstart, anchorView]
  · show anchorView (solveMotorVel dt (solveUpperLimitVel (solveLowerLimitVel
      (solveRotationVel (solveTranslationVel s))))).joint = anchorView s.joint
    rw [anchorView_solveMotorVel, anchorView_solveUpperLimitVel,
      anchorView_solveLowerLimitVel, anchorView_solveRotationVel,
      anchorView_solveTranslationVel]
  · simp [solvePositionConstraint, anchorView]
  · simp [createSliderJoint, anchorView]

lemma solveB_satisfies_constraint (p : BParams) (hK : p.effK ≠ 0) (s : BState) :
    (solveB p s).u2 - (solveB p s).u1 = -p.bias := by
  have h : p.m1inv + p.m2inv ≠ 0 := hK
  simp only [solveB, BParams.effK]
  field_simp
  ring

lemma solveB_fixed_point (p : BParams) (s : BState)
    (h : s.u2 - s.u1 = -p.bias) : solveB p s = s := by
  rcases s with ⟨u1, u2, lam⟩
  simp only at h
  simp only [solveB, BState.mk.injEq]
  refine ⟨?_, ?_, ?_⟩
  · linear_combination (p.m1inv * (1 / p.effK)) * h
  · linear_combination (-(p.m2inv * (1 / p.effK))) * h
  · linear_combination (-(1 / p.effK)) * h

lemma solveB_iterate_succ (p : BParams) (hK : p.effK ≠ 0) (s : BState) (n : ℕ) :
    (solveB p)^[n + 1] s = solveB p s := by
  induction n with
  | zero => rfl
  | succ n ih =>
    rw [Function.iterate_succ_apply', ih,
      solveB_fixed_point p _ (solveB_satisfies_constraint p hK s)]

lemma solveMotorVel_fixed (dt : decimal) (s : SolverState) (k : decimal)
    (hk : s.joint.mInverseMassMatrixMotor = some k)
    (h : clampD (s.joint.mImpulseMotor +
        k * (-(dot s.joint.mSliderAxisWorld s.v1 -
          dot s.joint.mSliderAxisWorld s.v2) - s.joint.mMotorSpeed))
        (-(s.joint.mMaxMotorForce * dt)) (s.joint.mMaxMotorForce * dt) =
      s.joint.mImpulseMotor) :
    solveMotorVel dt s = s := by
  by_cases hg : s.joint.mIsMotorEnabled = true
  · simp only [solveMotorVel, hg, if_true, hk]
    rw [h]
    simp [sub_self, v3zero_smul, v3neg_zero, v3smul_zero, v3add_zero]
    rw [← hk, ← hg]
  · simp [solveMotorVel, hg]

/-- Counterexample for C9: in the modelled step protocol itself, with
the accumulated motor impulse saturated at the clamp bound, the
warm-started run and the run with the warm-start phase skipped are each
already at a fixed point of the velocity-solve iteration — so each run
converges (is constant) for every number of velocity-solve iterations —
yet the two steady-state velocity pairs differ ((-10, 11) along the
axis versus (0, 1)): skipping warm-starting changes the fixed point,
not merely the convergence speed. -/
theorem warmstart_changes_steady_state_under_saturated_clamp :
    solveVelocityConstraint 1 (warmstart satState) = warmstart satState ∧
    solveVelocityConstraint 1 satState = satState ∧
    (warmstart satState).v1.x = -10 ∧ (warmstart satState).v2.x = 11 ∧
    satState.v1.x = 0 ∧ satState.v2.x = 1 := by
  have hT : satState.joint.mInverseMassMatrixTranslationConstraint = none := rfl
  have hR : satState.joint.mInverseMassMatrixRotationConstraint = none := rfl
  have hL : satState.joint.mInverseMassMatrixLimit = none := rfl
  have hWJ : (warmstart satState).joint = satState.joint := rfl
  refine ⟨?_, ?_, ?_, ?_, rfl, rfl⟩
  · show solveMotorVel 1 (solveUpperLimitVel (solveLowerLimitVel
      (solveRotationVel (solveTranslationVel (warmstart satState))))) =
      warmstart satState
    rw [solveTranslationVel_skip _ (hWJ ▸ hT), solveRotationVel_skip _ (hWJ ▸ hR),
      solveLowerLimitVel_skip _ (hWJ ▸ hL), solveUpperLimitVel_skip _ (hWJ ▸ hL)]
    exact solveMotorVel_fixed 1 (warmstart satState) (1 / 2) rfl
      (by norm_num [warmstart, satState, satJoint, sampleState, sampleJoint,
        createSliderJoint, mkInfoNoLimitNoMotor, dot, clampD, min_def, max_def])
  · show solveMotorVel 1 (solveUpperLimitVel (solveLowerLimitVel
      (solveRotationVel (solveTranslationVel satState)))) = satState
    rw [solveTranslationVel_skip _ hT, solveRotationVel_skip _ hR,
      solveLowerLimitVel_skip _ hL, solveUpperLimitVel_skip _ hL]
    exact solveMotorVel_fixed 1 satState (1 / 2) rfl
      (by norm_num [satState, satJoint, sampleState, sampleJoint,
        createSliderJoint, mkInfoNoLimitNoMotor, dot, clampD, min_def, max_def])
  · norm_num [warmstart, satState, satJoint, sampleState, sampleJoint,
      createSliderJoint, mkInfoNoLimitNoMotor]
  · norm_num [warmstart, satState, satJoint, sampleState, sampleJoint,
      createSliderJoint, mkInfoNoLimitNoMotor]

/-- C9 (amended): for the bilateral (unclamped, equality)
sub-constraints warm-starting is a pure convergence optimization —
for every initial state and every `n ≥ 1`, running `n` velocity-solve
iterations of the bilateral sub-constraint with the warm-start phase
skipped yields exactly the same body velocities as running them after
the warm-start phase, and the common result satisfies the constraint
equation and is a fixed point of the solve iteration.  For the clamped
motor sub-constraint the equivalence fails: with a saturated
accumulated motor impulse the two runs reach different steady-state
velocities. -/
theorem warmstart_equivalence (p : BParams) (s : BState) (n : ℕ)
    (hK : p.effK ≠ 0) (hn : 1 ≤ n) :
    ((solveB p)^[n] (warmstartB p s)).u1 = ((solveB p)^[n] s).u1 ∧
    ((solveB p)^[n] (warmstartB p s)).u2 = ((solveB p)^[n] s).u2 ∧
    ((solveB p)^[n] s).u2 - ((solveB p)^[n] s).u1 = -p.bias ∧
    solveB p ((solveB p)^[n] s) = (solveB p)^[n] s := by
  have h : p.m1inv + p.m2inv ≠ 0 := hK
  obtain ⟨m, rfl⟩ : ∃ m, n = m + 1 := ⟨n - 1, by omega⟩
  rw [solveB_iterate_succ p hK, solveB_iterate_succ p hK]
  refine ⟨?_, ?_, solveB_satisfies_constraint p hK s,
    solveB_fixed_point p _ (solveB_satisfies_constraint p hK s)⟩
  · simp only [solveB, warmstartB, BParams.effK]
    field_simp
    ring
  · simp only [solveB, warmstartB, BParams.effK]
    field_simp
    ring

/-- Witness for C9: unit inverse masses (effective mass 2) and two
iterations from a state with a nonzero previously accumulated impulse. -/
theorem warmstart_equivalence_witness :
    ((⟨1, 1, 0⟩ : BParams).effK ≠ 0 ∧ 1 ≤ 2) ∧
    (((solveB ⟨1, 1, 0⟩)^[2] (warmstartB ⟨1, 1, 0⟩ ⟨3, 5, 7⟩)).u1 =
        ((solveB ⟨1, 1, 0⟩)^[2] ⟨3, 5, 7⟩).u1 ∧
      ((solveB ⟨1, 1, 0⟩)^[2] (warmstartB ⟨1, 1, 0⟩ ⟨3, 5, 7⟩)).u2 =
        ((solveB ⟨1, 1, 0⟩)^[2] ⟨3, 5, 7⟩).u2 ∧
      ((solveB ⟨1, 1, 0⟩)^[2] (⟨3, 5, 7⟩ : BState)).u2 -
          ((solveB ⟨1, 1, 0⟩)^[2] (⟨3, 5, 7⟩ : BState)).u1 = -(⟨1, 1, 0⟩ : BParams).bias ∧
      solveB ⟨1, 1, 0⟩ ((solveB ⟨1, 1, 0⟩)^[2] ⟨3, 5, 7⟩) =
        (solveB ⟨1, 1, 0⟩)^[2] ⟨3, 5, 7⟩) :=
  ⟨⟨by norm_num [BParams.effK], by norm_num⟩,
    warmstart_equivalence ⟨1, 1, 0⟩ ⟨3, 5, 7⟩ 2
      (by norm_num [BParams.effK]) (by norm_num)⟩

lemma dotR_smul_left (c : ℝ) (v w : V3R) : dotR (c • v) w = c * dotR v w := by
  simp [dotR]; ring

lemma dotR_smul_right (c : ℝ) (v w : V3R) : dotR v (c • w) = c * dotR v w := by
  simp [dotR]; ring

lemma dotR_pos_of_ne_zero (v : V3R) (h : v ≠ ⟨0, 0, 0⟩) : 0 < dotR v v := by
  rcases v with ⟨x, y, z⟩
  have hc : x ≠ 0 ∨ y ≠ 0 ∨ z ≠ 0 := by
    by_contra hc
    push_neg at hc
    exact h (by rw [hc.1, hc.2.1, hc.2.2])
  unfold dotR
  rcases hc with hx | hy | hz
  · nlinarith [mul_self_nonneg y, mul_self_nonneg z, mul_self_pos.mpr hx]
  · nlinarith [mul_self_nonneg x, mul_self_nonneg z, mul_self_pos.mpr hy]
  · nlinarith [mul_self_nonneg x, mul_self_nonneg y, mul_self_pos.mpr hz]

lemma normalizeR_self_dot (v : V3R) (h : v ≠ ⟨0, 0, 0⟩) :
    dotR (normalizeR v) (normalizeR v) = 1 := by
  have hp := dotR_pos_of_ne_zero v h
  have hs : Real.sqrt (dotR v v) ≠ 0 := ne_of_gt (Real.sqrt_pos.mpr hp)
  unfold normalizeR normR
  rw [dotR_smul_left, dotR_smul_right, ← mul_assoc, ← mul_inv,
    Real.mul_self_sqrt hp.le]
  exact inv_mul_cancel₀ (ne_of_gt hp)

lemma dotR_cross_left (a b : V3R) : dotR a (crossR a b) = 0 := by
  simp [dotR, crossR]; ring

lemma dotR_cross_right (a b : V3R) : dotR b (crossR a b) = 0 := by
  simp [dotR, crossR]; ring

lemma cross_self_dot (a b : V3R) :
    dotR (crossR a b) (crossR a b) = dotR a a * dotR b b - dotR a b ^ 2 := by
  simp [dotR, crossR]; ring

lemma seedR_unit (a : V3R) : dotR (seedR a) (seedR a) = 1 := by
  unfold seedR
  split_ifs <;> norm_num [dotR]

lemma seedR_least_aligned (a : V3R) (h : dotR a a = 1) :
    dotR a (seedR a) ^ 2 ≤ 1 / 3 := by
  have hsum : a.x * a.x + a.y * a.y + a.z * a.z = 1 := h
  unfold seedR
  split_ifs with h1 h2
  · have hxy : a.x ^ 2 ≤ a.y ^ 2 := by
      rw [← sq_abs a.x, ← sq_abs a.y]
      exact pow_le_pow_left₀ (abs_nonneg _) h1.1 2
    have hxz : a.x ^ 2 ≤ a.z ^ 2 := by
      rw [← sq_abs a.x, ← sq_abs a.z]
      exact pow_le_pow_left₀ (abs_nonneg _) h1.2 2
    simp only [dotR]
    nlinarith [hxy, hxz, hsum]
  · have hyx : a.y ^ 2 ≤ a.x ^ 2 := by
      by_cases hxy : |a.x| ≤ |a.y|
      · exact absurd h2 (not_le.mpr (lt_of_lt_of_le (not_le.mp (not_and.mp h1 hxy)) hxy))
      · rw [← sq_abs a.y, ← sq_abs a.x]
        exact pow_le_pow_left₀ (abs_nonneg _) (le_of_lt (not_le.mp hxy)) 2
    have hyz : a.y ^ 2 ≤ a.z ^ 2 := by
      rw [← sq_abs a.y, ← sq_abs a.z]
      exact pow_le_pow_left₀ (abs_nonneg _) h2 2
    simp only [dotR]
    nlinarith [hyx, hyz, hsum]
  · have hzy : a.z ^ 2 ≤ a.y ^ 2 := by
      rw [← sq_abs a.z, ← sq_abs a.y]
      exact pow_le_pow_left₀ (abs_nonneg _) (le_of_lt (not_le.mp h2)) 2
    have hzx : a.z ^ 2 ≤ a.x ^ 2 := by
      by_cases hxy : |a.x| ≤ |a.y|
      · rw [← sq_abs a.z, ← sq_abs a.x]
        exact pow_le_pow_left₀ (abs_nonneg _) (le_of_lt (not_le.mp (not_and.mp h1 hxy))) 2
      · rw [← sq_abs a.z, ← sq_abs a.x]
        exact pow_le_pow_left₀ (abs_nonneg _)
          (le_of_lt (lt_trans (not_le.mp h2) (not_le.mp hxy))) 2
    simp only [dotR]
    nlinarith [hzy, hzx, hsum]

lemma cross_seed_ne_zero (a : V3R) (h : dotR a a = 1) :
    crossR a (seedR a) ≠ ⟨0, 0, 0⟩ := by
  intro hc
  have h0 : dotR (crossR a (seedR a)) (crossR a (seedR a)) = 0 := by
    rw [hc]; norm_num [dotR]
  have hL := cross_self_dot a (seedR a)
  rw [h, seedR_unit a, h0] at hL
  have halign := seedR_least_aligned a h
  nlinarith [halign, hL]

lemma mulVecR_preserves_dot (m : Mat3R) (hM : isOrthoR m) (v w : V3R) :
    dotR (mulVecR m v) (mulVecR m w) = dotR v w := by
  obtain ⟨g1, g2, g3, g4, g5, g6⟩ := hM
  simp only [dotR, mulVecR]
  linear_combination (v.x * w.x) * g1 + (v.y * w.y) * g2 + (v.z * w.z) * g3 +
    (v.x * w.y + v.y * w.x) * g4 + (v.x * w.z + v.z * w.x) * g5 +
    (v.y * w.z + v.z * w.y) * g6

/-- C7: after any body motion (any rotation, i.e. any orthogonal
orientation matrix), the world-space images of the slider axis and the
two basis normals built at construction form an orthonormal set: each
has unit length and each pair is orthogonal. -/
theorem world_basis_orthonormal (axis : V3R) (M : Mat3R)
    (ha : axis ≠ (⟨0, 0, 0⟩ : V3R)) (hM : isOrthoR M) :
    dotR (mulVecR M (unitAxisR axis)) (mulVecR M (unitAxisR axis)) = 1 ∧
    dotR (mulVecR M (localN1R axis)) (mulVecR M (localN1R axis)) = 1 ∧
    dotR (mulVecR M (localN2R axis)) (mulVecR M (localN2R axis)) = 1 ∧
    dotR (mulVecR M (unitAxisR axis)) (mulVecR M (localN1R axis)) = 0 ∧
    dotR (mulVecR M (unitAxisR axis)) (mulVecR M (localN2R axis)) = 0 ∧
    dotR (mulVecR M (localN1R axis)) (mulVecR M (localN2R axis)) = 0 := by
  have h1 : dotR (unitAxisR axis) (unitAxisR axis) = 1 :=
    normalizeR_self_dot axis ha
  have hcne := cross_seed_ne_zero (unitAxisR axis) h1
  have hn1 : dotR (localN1R axis) (localN1R axis) = 1 :=
    normalizeR_self_dot _ hcne
  have han1 : dotR (unitAxisR axis) (localN1R axis) = 0 := by
    unfold localN1R normalizeR
    rw [dotR_smul_right, dotR_cross_left]
    ring
  have hn2 : dotR (localN2R axis) (localN2R axis) = 1 := by
    unfold localN2R
    rw [cross_self_dot, h1, hn1, han1]
    norm_num
  have han2 : dotR (unitAxisR axis) (localN2R axis) = 0 := by
    unfold localN2R
    exact dotR_cross_left _ _
  have hn12 : dotR (localN1R axis) (localN2R axis) = 0 := by
    unfold localN2R
    exact dotR_cross_right _ _
  rw [mulVecR_preserves_dot M hM, mulVecR_preserves_dot M hM,
    mulVecR_preserves_dot M hM, mulVecR_preserves_dot M hM,
    mulVecR_preserves_dot M hM, mulVecR_preserves_dot M hM]
  exact ⟨h1, hn1, hn2, han1, han2, hn12⟩

/-- Witness for C7: the unit x-axis and the identity orientation. -/
theorem world_basis_orthonormal_witness :
    ((⟨1, 0, 0⟩ : V3R) ≠ (⟨0, 0, 0⟩ : V3R) ∧
      isOrthoR ⟨1, 0, 0, 0, 1, 0, 0, 0, 1⟩) ∧
    (dotR (mulVecR ⟨1, 0, 0, 0, 1, 0, 0, 0, 1⟩ (unitAxisR ⟨1, 0, 0⟩))
        (mulVecR ⟨1, 0, 0, 0, 1, 0, 0, 0, 1⟩ (unitAxisR ⟨1, 0, 0⟩)) = 1 ∧
      dotR (mulVecR ⟨1, 0, 0, 0, 1, 0, 0, 0, 1⟩ (localN1R ⟨1, 0, 0⟩))
        (mulVecR ⟨1, 0, 0, 0, 1, 0, 0, 0, 1⟩ (localN1R ⟨1, 0, 0⟩)) = 1 ∧
      dotR (mulVecR ⟨1, 0, 0, 0, 1, 0, 0, 0, 1⟩ (localN2R ⟨1, 0, 0⟩))
        (mulVecR ⟨1, 0, 0, 0, 1, 0, 0, 0, 1⟩ (localN2R ⟨1, 0, 0⟩)) = 1 ∧
      dotR (mulVecR ⟨1, 0, 0, 0, 1, 0, 0, 0, 1⟩ (unitAxisR ⟨1, 0, 0⟩))
        (mulVecR ⟨1, 0, 0, 0, 1, 0, 0, 0, 1⟩ (localN1R ⟨1, 0, 0⟩)) = 0 ∧
      dotR (mulVecR ⟨1, 0, 0, 0, 1, 0, 0, 0, 1⟩ (unitAxisR ⟨1, 0, 0⟩))
        (mulVecR ⟨1, 0, 0, 0, 1, 0, 0, 0, 1⟩ (localN2R ⟨1, 0, 0⟩)) = 0 ∧
      dotR (mulVecR ⟨1, 0, 0, 0, 1, 0, 0, 0, 1⟩ (localN1R ⟨1, 0, 0⟩))
        (mulVecR ⟨1, 0, 0, 0, 1, 0, 0, 0, 1⟩ (localN2R ⟨1, 0, 0⟩)) = 0) :=
  ⟨⟨fun hc => one_ne_zero (congrArg V3R.x hc), by norm_num [isOrthoR]⟩,
    world_basis_orthonormal ⟨1, 0, 0⟩ ⟨1, 0, 0, 0, 1, 0, 0, 0, 1⟩
      (fun hc => one_ne_zero (congrArg V3R.x hc)) (by norm_num [isOrthoR])⟩

end SliderSpec
